import Mathlib

/-!
Shallow embedding of `src/server/src/validation/pydantic_schemas.py`.

Modelling conventions:
* Python floats are embedded as `ℚ` (the arithmetic the validators perform —
  sums, comparisons, division — is exact on the values the schema handles).
* Python ints are embedded as `ℤ`.
* `datetime` values are embedded as opaque `ℤ` timestamps and `UUID` / `HttpUrl`
  values as opaque strings: none of the validators in this file inspect their
  structure, and canonical (already validated/serialized) documents carry them
  unchanged.
* A raw "JSON-like" input is a `Value` tree; a keyword-argument dict is a list
  of key/value pairs looked up by key, mirroring `Model(**data)`.
* pydantic raises `ValidationError` carrying a list of violations; the
  embedding uses `Except String` and reports the first violation (all claims
  under consideration depend only on success/failure and on the message of a
  single violated rule).  Field checks run before `model_validator(mode='after')`
  hooks, exactly as in pydantic: an after-validator never runs when a field
  constraint already failed.
-/

/-- A JSON-like runtime value, the shape of the untrusted input that the
pydantic models consume and of the documents `model_dump` produces. -/
inductive Value where
  | vnull : Value
  | vbool : Bool → Value
  | vint : Int → Value
  | vnum : ℚ → Value
  | vstr : String → Value
  | vlist : List Value → Value
  | vdict : List (String × Value) → Value

abbrev Dict := List (String × Value)

/-- Key lookup in a keyword-argument dict (first binding wins). -/
def dictGet : Dict → String → Option Value
  | [], _ => none
  | (k, v) :: rest, key => if k = key then some v else dictGet rest key

/-- A field without a default: absence is a violation. -/
def reqField (d : Dict) (k : String) : Except String Value :=
  match dictGet d k with
  | some v => .ok v
  | none => .error (k ++ ": Field required")

/-- Coerce an optional value: an explicit `None` becomes `none`. -/
def parseOptVal (f : Value → Except String α) : Value → Except String (Option α)
  | .vnull => .ok none
  | v => Except.map some (f v)

/-- An `Optional[...] = None` field: absent or `None` becomes `none`. -/
def optField (d : Dict) (k : String) (f : Value → Except String α) :
    Except String (Option α) :=
  match dictGet d k with
  | none => .ok none
  | some v => parseOptVal f v

def asStr : Value → Except String String
  | .vstr s => .ok s
  | _ => .error "Input should be a valid string"

def asFloat : Value → Except String ℚ
  | .vnum q => .ok q
  | .vint n => .ok (n : ℚ)
  | _ => .error "Input should be a valid number"

def asInt : Value → Except String Int
  | .vint n => .ok n
  | _ => .error "Input should be a valid integer"

def asBool : Value → Except String Bool
  | .vbool b => .ok b
  | _ => .error "Input should be a valid boolean"

def asList : Value → Except String (List Value)
  | .vlist l => .ok l
  | _ => .error "Input should be a valid list"

def asDict : Value → Except String Dict
  | .vdict d => .ok d
  | _ => .error "Input should be a valid dictionary"

/-- `datetime` scalars, embedded as opaque timestamps. -/
def asDatetime : Value → Except String Int
  | .vint n => .ok n
  | _ => .error "Input should be a valid datetime"

/-- Coerce a `List[str]` field. -/
def asStrList (v : Value) : Except String (List String) :=
  asList v >>= fun l => l.mapM asStr

/-- A float field with a declared default, like the `AnalysisWeightings` weights. -/
def defFloatField (d : Dict) (k : String) (dflt : ℚ) : Except String ℚ :=
  match dictGet d k with
  | none => .ok dflt
  | some v => asFloat v

/-- `Field(ge=lo)` on a float field. -/
def checkGeQ (field : String) (lo x : ℚ) : Except String ℚ :=
  if lo ≤ x then .ok x
  else .error (field ++ ": Input should be greater than or equal to " ++ toString lo)

/-- `Field(le=hi)` on a float field. -/
def checkLeQ (field : String) (hi x : ℚ) : Except String ℚ :=
  if x ≤ hi then .ok x
  else .error (field ++ ": Input should be less than or equal to " ++ toString hi)

/-- `Field(ge=lo)` on an int field. -/
def checkGeI (field : String) (lo x : Int) : Except String Int :=
  if lo ≤ x then .ok x
  else .error (field ++ ": Input should be greater than or equal to " ++ toString lo)

/-- `Field(le=hi)` on an int field. -/
def checkLeI (field : String) (hi x : Int) : Except String Int :=
  if x ≤ hi then .ok x
  else .error (field ++ ": Input should be less than or equal to " ++ toString hi)

/-- `Field(min_length=lo)` on a string field. -/
def checkMinLen (field : String) (lo : Nat) (s : String) : Except String String :=
  if lo ≤ s.length then .ok s
  else .error (field ++ ": String should have at least " ++ toString lo ++ " characters")

/-- `Field(max_length=hi)` on a string field. -/
def checkMaxLen (field : String) (hi : Nat) (s : String) : Except String String :=
  if s.length ≤ hi then .ok s
  else .error (field ++ ": String should have at most " ++ toString hi ++ " characters")

/-- `Field(min_length=lo)` on a list field (minimum number of items). -/
def checkMinItems (field : String) (lo : Nat) (l : List α) : Except String (List α) :=
  if lo ≤ l.length then .ok l
  else .error (field ++ ": List should have at least " ++ toString lo ++ " items")

/-- Lift a constraint over an `Optional` field: `None` always passes. -/
def checkOpt (f : α → Except String α) : Option α → Except String (Option α)
  | none => .ok none
  | some x => Except.map some (f x)

/-- A `Literal[...]` field: membership in a closed set of strings. -/
def checkLiteral (field : String) (allowed : List String) (s : String) :
    Except String String :=
  if allowed.contains s then .ok s
  else .error (field ++ ": Input should be one of the allowed literal values")

/-- `True` when the construction succeeded (no exception was raised). -/
def exceptOk : Except ε α → Bool
  | .ok _ => true
  | .error _ => false

/-- `pat` occurs as a contiguous substring of `s` (Python's `pat in s`). -/
def strContains (s pat : String) : Prop :=
  pat.data <:+: s.data

instance (s pat : String) : Decidable (strContains s pat) :=
  inferInstanceAs (Decidable (pat.data <:+: s.data))

/-- Per-item length gate shared by the list-field validators and `valid`. -/
def itemsLenOk (lo hi : Nat) (l : List String) : Bool :=
  l.all fun s => decide (lo ≤ s.length) && decide (s.length ≤ hi)

/-- A `field_validator` that rejects any item outside a character-length range,
raising one fixed message (as each of the source's per-item loops does). -/
def checkItemsLen (lo hi : Nat) (msg : String) (l : List String) :
    Except String (List String) :=
  if itemsLenOk lo hi l then .ok l else .error msg

/-- `validate_projected_arr`: every projected ARR value must be non-negative. -/
def allNonneg (l : List ℚ) : Bool :=
  l.all fun v => decide (0 ≤ v)

/- ### Enumerations -/

inductive FundingStage where
  | preSeed | seed | seriesA | seriesB | seriesC | laterStage
deriving DecidableEq

def FundingStage.pyStr : FundingStage → String
  | .preSeed => "pre-seed"
  | .seed => "seed"
  | .seriesA => "series-a"
  | .seriesB => "series-b"
  | .seriesC => "series-c"
  | .laterStage => "later-stage"

def FundingStage.ofStr (s : String) : Except String FundingStage :=
  if s = "pre-seed" then .ok .preSeed
  else if s = "seed" then .ok .seed
  else if s = "series-a" then .ok .seriesA
  else if s = "series-b" then .ok .seriesB
  else if s = "series-c" then .ok .seriesC
  else if s = "later-stage" then .ok .laterStage
  else .error "Input should be a valid FundingStage"

def asStage (v : Value) : Except String FundingStage :=
  asStr v >>= FundingStage.ofStr

inductive RecommendationType where
  | strongBuy | buy | hold | pass | strongPass
deriving DecidableEq

def RecommendationType.pyStr : RecommendationType → String
  | .strongBuy => "strong-buy"
  | .buy => "buy"
  | .hold => "hold"
  | .pass => "pass"
  | .strongPass => "strong-pass"

def RecommendationType.ofStr (s : String) : Except String RecommendationType :=
  if s = "strong-buy" then .ok .strongBuy
  else if s = "buy" then .ok .buy
  else if s = "hold" then .ok .hold
  else if s = "pass" then .ok .pass
  else if s = "strong-pass" then .ok .strongPass
  else .error "Input should be a valid RecommendationType"

def asRecommendation (v : Value) : Except String RecommendationType :=
  asStr v >>= RecommendationType.ofStr

inductive RiskType where
  | inconsistency | marketSize | financialAnomaly | competitiveRisk | teamRisk | technicalRisk
deriving DecidableEq

def RiskType.pyStr : RiskType → String
  | .inconsistency => "inconsistency"
  | .marketSize => "market-size"
  | .financialAnomaly => "financial-anomaly"
  | .competitiveRisk => "competitive-risk"
  | .teamRisk => "team-risk"
  | .technicalRisk => "technical-risk"

def RiskType.ofStr (s : String) : Except String RiskType :=
  if s = "inconsistency" then .ok .inconsistency
  else if s = "market-size" then .ok .marketSize
  else if s = "financial-anomaly" then .ok .financialAnomaly
  else if s = "competitive-risk" then .ok .competitiveRisk
  else if s = "team-risk" then .ok .teamRisk
  else if s = "technical-risk" then .ok .technicalRisk
  else .error "Input should be a valid RiskType"

def asRiskType (v : Value) : Except String RiskType :=
  asStr v >>= RiskType.ofStr

inductive RiskSeverity where
  | high | medium | low
deriving DecidableEq

def RiskSeverity.pyStr : RiskSeverity → String
  | .high => "HIGH"
  | .medium => "MEDIUM"
  | .low => "LOW"

def RiskSeverity.ofStr (s : String) : Except String RiskSeverity :=
  if s = "HIGH" then .ok .high
  else if s = "MEDIUM" then .ok .medium
  else if s = "LOW" then .ok .low
  else .error "Input should be a valid RiskSeverity"

def asRiskSeverity (v : Value) : Except String RiskSeverity :=
  asStr v >>= RiskSeverity.ofStr

/- ### Leaf / mid-level entities that only need parsing (not in the memo tree) -/

structure TeamMember where
  name : String
  role : String
  background : Option String
  linkedin_url : Option String
  years_experience : Option Int
  education : Option String
  previous_companies : Option (List String)
  expertise : Option (List String)
  is_founder : Option Bool

def TeamMember.parse (v : Value) : Except String TeamMember := do
  let d ← asDict v
  let name ← reqField d "name" >>= asStr
  let name ← checkMinLen "name" 1 name
  let name ← checkMaxLen "name" 100 name
  let role ← reqField d "role" >>= asStr
  let role ← checkMinLen "role" 1 role
  let role ← checkMaxLen "role" 100 role
  let background ← optField d "background" asStr
  let linkedin_url ← optField d "linkedin_url" asStr
  let years_experience ← optField d "years_experience" asInt
  let years_experience ← checkOpt (checkGeI "years_experience" 0) years_experience
  let years_experience ← checkOpt (checkLeI "years_experience" 50) years_experience
  let education ← optField d "education" asStr
  let previous_companies ← optField d "previous_companies"
    asStrList
  let expertise ← optField d "expertise" asStrList
  let is_founder ← optField d "is_founder" asBool
  return ⟨name, role, background, linkedin_url, years_experience, education,
    previous_companies, expertise, is_founder⟩

structure SocialLinks where
  linkedin : Option String
  twitter : Option String
  crunchbase : Option String

def SocialLinks.parse (v : Value) : Except String SocialLinks := do
  let d ← asDict v
  let linkedin ← optField d "linkedin" asStr
  let twitter ← optField d "twitter" asStr
  let crunchbase ← optField d "crunchbase" asStr
  return ⟨linkedin, twitter, crunchbase⟩

structure CompanyProfile where
  id : String
  created_at : Int
  updated_at : Int
  name : String
  one_liner : String
  sector : String
  stage : FundingStage
  founded_year : Int
  location : String
  website : Option String
  description : Option String
  logo_url : Option String
  social_links : Option SocialLinks

/-- `CompanyProfile(**data)`.  The upper bound of `founded_year` is declared as
`le=datetime.now().year`, an expression the host language evaluates once, when
the class body is executed (module import); `classDefYear` is that frozen
value.  It is NOT re-read on later validation calls. -/
def CompanyProfile.parse (classDefYear : Int) (v : Value) : Except String CompanyProfile := do
  let d ← asDict v
  let id ← reqField d "id" >>= asStr
  let created_at ← reqField d "created_at" >>= asDatetime
  let updated_at ← reqField d "updated_at" >>= asDatetime
  let name ← reqField d "name" >>= asStr
  let name ← checkMinLen "name" 1 name
  let name ← checkMaxLen "name" 200 name
  let one_liner ← reqField d "one_liner" >>= asStr
  let one_liner ← checkMinLen "one_liner" 10 one_liner
  let one_liner ← checkMaxLen "one_liner" 500 one_liner
  let sector ← reqField d "sector" >>= asStr
  let sector ← checkMinLen "sector" 1 sector
  let sector ← checkMaxLen "sector" 100 sector
  let stage ← reqField d "stage" >>= asStage
  let founded_year ← reqField d "founded_year" >>= asInt
  let founded_year ← checkGeI "founded_year" 1900 founded_year
  let founded_year ← checkLeI "founded_year" classDefYear founded_year
  let location ← reqField d "location" >>= asStr
  let location ← checkMinLen "location" 1 location
  let location ← checkMaxLen "location" 200 location
  let website ← optField d "website" asStr
  let description ← optField d "description" asStr
  let description ← checkOpt (checkMaxLen "description" 2000) description
  let logo_url ← optField d "logo_url" asStr
  let social_links ← optField d "social_links" SocialLinks.parse
  return ⟨id, created_at, updated_at, name, one_liner, sector, stage, founded_year,
    location, website, description, logo_url, social_links⟩

structure RevenueMetrics where
  arr : Option ℚ
  mrr : Option ℚ
  growth_rate : Option ℚ
  projected_arr : Option (List ℚ)
  revenue_run_rate : Option ℚ
  gross_margin : Option ℚ
  net_revenue_retention : Option ℚ

def RevenueMetrics.parse (v : Value) : Except String RevenueMetrics := do
  let d ← asDict v
  let arr ← optField d "arr" asFloat
  let arr ← checkOpt (checkGeQ "arr" 0) arr
  let mrr ← optField d "mrr" asFloat
  let mrr ← checkOpt (checkGeQ "mrr" 0) mrr
  let growth_rate ← optField d "growth_rate" asFloat
  let growth_rate ← checkOpt (checkGeQ "growth_rate" (-100)) growth_rate
  let growth_rate ← checkOpt (checkLeQ "growth_rate" 10000) growth_rate
  let projected_arr ← optField d "projected_arr"
    (fun v => asList v >>= fun l => l.mapM asFloat)
  let projected_arr ← checkOpt
    (fun l => if allNonneg l then .ok l
      else .error "All projected ARR values must be non-negative") projected_arr
  let revenue_run_rate ← optField d "revenue_run_rate" asFloat
  let revenue_run_rate ← checkOpt (checkGeQ "revenue_run_rate" 0) revenue_run_rate
  let gross_margin ← optField d "gross_margin" asFloat
  let gross_margin ← checkOpt (checkGeQ "gross_margin" 0) gross_margin
  let gross_margin ← checkOpt (checkLeQ "gross_margin" 100) gross_margin
  let net_revenue_retention ← optField d "net_revenue_retention" asFloat
  let net_revenue_retention ← checkOpt (checkGeQ "net_revenue_retention" 0) net_revenue_retention
  let net_revenue_retention ← checkOpt (checkLeQ "net_revenue_retention" 500) net_revenue_retention
  return ⟨arr, mrr, growth_rate, projected_arr, revenue_run_rate, gross_margin,
    net_revenue_retention⟩

structure TractionMetrics where
  customers : Option Int
  customer_growth_rate : Option ℚ
  churn_rate : Option ℚ
  nps : Option ℚ
  active_users : Option Int
  conversion_rate : Option ℚ
  ltv : Option ℚ
  cac : Option ℚ
  ltv_cac_ratio : Option ℚ

def TractionMetrics.parse (v : Value) : Except String TractionMetrics := do
  let d ← asDict v
  let customers ← optField d "customers" asInt
  let customers ← checkOpt (checkGeI "customers" 0) customers
  let customer_growth_rate ← optField d "customer_growth_rate" asFloat
  let customer_growth_rate ← checkOpt (checkGeQ "customer_growth_rate" (-100)) customer_growth_rate
  let customer_growth_rate ← checkOpt (checkLeQ "customer_growth_rate" 10000) customer_growth_rate
  let churn_rate ← optField d "churn_rate" asFloat
  let churn_rate ← checkOpt (checkGeQ "churn_rate" 0) churn_rate
  let churn_rate ← checkOpt (checkLeQ "churn_rate" 100) churn_rate
  let nps ← optField d "nps" asFloat
  let nps ← checkOpt (checkGeQ "nps" (-100)) nps
  let nps ← checkOpt (checkLeQ "nps" 100) nps
  let active_users ← optField d "active_users" asInt
  let active_users ← checkOpt (checkGeI "active_users" 0) active_users
  let conversion_rate ← optField d "conversion_rate" asFloat
  let conversion_rate ← checkOpt (checkGeQ "conversion_rate" 0) conversion_rate
  let conversion_rate ← checkOpt (checkLeQ "conversion_rate" 100) conversion_rate
  let ltv ← optField d "ltv" asFloat
  let ltv ← checkOpt (checkGeQ "ltv" 0) ltv
  let cac ← optField d "cac" asFloat
  let cac ← checkOpt (checkGeQ "cac" 0) cac
  let ltv_cac_ratio ← optField d "ltv_cac_ratio" asFloat
  let ltv_cac_ratio ← checkOpt (checkGeQ "ltv_cac_ratio" 0) ltv_cac_ratio
  return ⟨customers, customer_growth_rate, churn_rate, nps, active_users,
    conversion_rate, ltv, cac, ltv_cac_ratio⟩

structure TeamMetrics where
  size : Int
  founders_count : Int
  key_hires : List TeamMember
  engineering_team_size : Option Int
  sales_team_size : Option Int
  burn_rate : Option ℚ
  runway : Option ℚ

def TeamMetrics.parse (v : Value) : Except String TeamMetrics := do
  let d ← asDict v
  let size ← reqField d "size" >>= asInt
  let size ← checkGeI "size" 1 size
  let size ← checkLeI "size" 10000 size
  let founders_count ← reqField d "founders_count" >>= asInt
  let founders_count ← checkGeI "founders_count" 1 founders_count
  let founders_count ← checkLeI "founders_count" 20 founders_count
  let key_hires ← reqField d "key_hires" >>= asList
  let key_hires ← key_hires.mapM TeamMember.parse
  let engineering_team_size ← optField d "engineering_team_size" asInt
  let engineering_team_size ← checkOpt (checkGeI "engineering_team_size" 0) engineering_team_size
  let sales_team_size ← optField d "sales_team_size" asInt
  let sales_team_size ← checkOpt (checkGeI "sales_team_size" 0) sales_team_size
  let burn_rate ← optField d "burn_rate" asFloat
  let burn_rate ← checkOpt (checkGeQ "burn_rate" 0) burn_rate
  let runway ← optField d "runway" asFloat
  let runway ← checkOpt (checkGeQ "runway" 0) runway
  return ⟨size, founders_count, key_hires, engineering_team_size, sales_team_size,
    burn_rate, runway⟩

structure FundingMetrics where
  total_raised : Option ℚ
  last_round_size : Option ℚ
  last_round_date : Option Int
  current_ask : Option ℚ
  valuation : Option ℚ
  pre_money_valuation : Option ℚ
  post_money_valuation : Option ℚ
  stage : Option FundingStage
  lead_investor : Option String
  use_of_funds : Option (List String)

def FundingMetrics.parse (v : Value) : Except String FundingMetrics := do
  let d ← asDict v
  let total_raised ← optField d "total_raised" asFloat
  let total_raised ← checkOpt (checkGeQ "total_raised" 0) total_raised
  let last_round_size ← optField d "last_round_size" asFloat
  let last_round_size ← checkOpt (checkGeQ "last_round_size" 0) last_round_size
  let last_round_date ← optField d "last_round_date" asDatetime
  let current_ask ← optField d "current_ask" asFloat
  let current_ask ← checkOpt (checkGeQ "current_ask" 0) current_ask
  let valuation ← optField d "valuation" asFloat
  let valuation ← checkOpt (checkGeQ "valuation" 0) valuation
  let pre_money_valuation ← optField d "pre_money_valuation" asFloat
  let pre_money_valuation ← checkOpt (checkGeQ "pre_money_valuation" 0) pre_money_valuation
  let post_money_valuation ← optField d "post_money_valuation" asFloat
  let post_money_valuation ← checkOpt (checkGeQ "post_money_valuation" 0) post_money_valuation
  let stage ← optField d "stage" asStage
  let lead_investor ← optField d "lead_investor" asStr
  let use_of_funds ← optField d "use_of_funds" asStrList
  return ⟨total_raised, last_round_size, last_round_date, current_ask, valuation,
    pre_money_valuation, post_money_valuation, stage, lead_investor, use_of_funds⟩

structure InvestmentMetrics where
  id : String
  created_at : Int
  updated_at : Int
  revenue : RevenueMetrics
  traction : TractionMetrics
  team : TeamMetrics
  funding : FundingMetrics
  extraction_timestamp : Int
  source_documents : List String
  confidence : ℚ

def InvestmentMetrics.parse (v : Value) : Except String InvestmentMetrics := do
  let d ← asDict v
  let id ← reqField d "id" >>= asStr
  let created_at ← reqField d "created_at" >>= asDatetime
  let updated_at ← reqField d "updated_at" >>= asDatetime
  let revenue ← reqField d "revenue" >>= RevenueMetrics.parse
  let traction ← reqField d "traction" >>= TractionMetrics.parse
  let team ← reqField d "team" >>= TeamMetrics.parse
  let funding ← reqField d "funding" >>= FundingMetrics.parse
  let extraction_timestamp ← reqField d "extraction_timestamp" >>= asDatetime
  let source_documents ← reqField d "source_documents" >>= asList
  let source_documents ← source_documents.mapM asStr
  let confidence ← reqField d "confidence" >>= asFloat
  let confidence ← checkGeQ "confidence" 0 confidence
  let confidence ← checkLeQ "confidence" 1 confidence
  return ⟨id, created_at, updated_at, revenue, traction, team, funding,
    extraction_timestamp, source_documents, confidence⟩

/- ### Serialization helpers (`model_dump`) -/

/-- Dump an optional scalar: `None` serializes as `null`. -/
def dumpOpt (f : α → Value) : Option α → Value
  | none => .vnull
  | some x => f x

def dumpStrList (l : List String) : Value :=
  .vlist (l.map Value.vstr)

/- ### Entities of the deal-memo tree (parse / dump / valid) -/

structure RiskFlag where
  id : String
  created_at : Int
  updated_at : Int
  type : RiskType
  severity : RiskSeverity
  title : String
  description : String
  affected_metrics : List String
  suggested_mitigation : String
  source_documents : List String
  confidence : ℚ
  impact : String
  likelihood : String
  category : String
  detected_at : Int
  evidence : List String
  related_flags : Option (List String)

def impactLiterals : List String := ["low", "medium", "high", "critical"]
def likelihoodLiterals : List String := ["low", "medium", "high"]
def categoryLiterals : List String :=
  ["financial", "market", "team", "product", "competitive", "operational"]

def RiskFlag.parse (v : Value) : Except String RiskFlag := do
  let d ← asDict v
  let id ← reqField d "id" >>= asStr
  let created_at ← reqField d "created_at" >>= asDatetime
  let updated_at ← reqField d "updated_at" >>= asDatetime
  let type ← reqField d "type" >>= asRiskType
  let severity ← reqField d "severity" >>= asRiskSeverity
  let title ← reqField d "title" >>= asStr
  let title ← checkMinLen "title" 1 title
  let title ← checkMaxLen "title" 200 title
  let description ← reqField d "description" >>= asStr
  let description ← checkMinLen "description" 10 description
  let description ← checkMaxLen "description" 1000 description
  let affected_metrics ← reqField d "affected_metrics" >>= asList
  let affected_metrics ← affected_metrics.mapM asStr
  let suggested_mitigation ← reqField d "suggested_mitigation" >>= asStr
  let suggested_mitigation ← checkMinLen "suggested_mitigation" 10 suggested_mitigation
  let suggested_mitigation ← checkMaxLen "suggested_mitigation" 1000 suggested_mitigation
  let source_documents ← reqField d "source_documents" >>= asList
  let source_documents ← source_documents.mapM asStr
  let confidence ← reqField d "confidence" >>= asFloat
  let confidence ← checkGeQ "confidence" 0 confidence
  let confidence ← checkLeQ "confidence" 1 confidence
  let impact ← reqField d "impact" >>= asStr
  let impact ← checkLiteral "impact" impactLiterals impact
  let likelihood ← reqField d "likelihood" >>= asStr
  let likelihood ← checkLiteral "likelihood" likelihoodLiterals likelihood
  let category ← reqField d "category" >>= asStr
  let category ← checkLiteral "category" categoryLiterals category
  let detected_at ← reqField d "detected_at" >>= asDatetime
  let evidence ← reqField d "evidence" >>= asList
  let evidence ← evidence.mapM asStr
  let related_flags ← optField d "related_flags" asStrList
  return ⟨id, created_at, updated_at, type, severity, title, description,
    affected_metrics, suggested_mitigation, source_documents, confidence, impact,
    likelihood, category, detected_at, evidence, related_flags⟩

def RiskFlag.dump (r : RiskFlag) : Value :=
  .vdict [("id", .vstr r.id), ("created_at", .vint r.created_at),
    ("updated_at", .vint r.updated_at), ("type", .vstr r.type.pyStr),
    ("severity", .vstr r.severity.pyStr), ("title", .vstr r.title),
    ("description", .vstr r.description),
    ("affected_metrics", dumpStrList r.affected_metrics),
    ("suggested_mitigation", .vstr r.suggested_mitigation),
    ("source_documents", dumpStrList r.source_documents),
    ("confidence", .vnum r.confidence), ("impact", .vstr r.impact),
    ("likelihood", .vstr r.likelihood), ("category", .vstr r.category),
    ("detected_at", .vint r.detected_at), ("evidence", dumpStrList r.evidence),
    ("related_flags", dumpOpt dumpStrList r.related_flags)]

def RiskFlag.valid (r : RiskFlag) : Bool :=
  decide (1 ≤ r.title.length) && decide (r.title.length ≤ 200) &&
  decide (10 ≤ r.description.length) && decide (r.description.length ≤ 1000) &&
  decide (10 ≤ r.suggested_mitigation.length) &&
  decide (r.suggested_mitigation.length ≤ 1000) &&
  decide (0 ≤ r.confidence) && decide (r.confidence ≤ 1) &&
  decide (r.impact ∈ impactLiterals) && decide (r.likelihood ∈ likelihoodLiterals) &&
  decide (r.category ∈ categoryLiterals)

structure MetricDistribution where
  min : ℚ
  max : ℚ
  median : ℚ
  p25 : ℚ
  p75 : ℚ
  p90 : ℚ
  mean : ℚ
  std_dev : ℚ
  sample_size : Int

/-- Field constraints (`sample_size ≥ 1`) followed by `validate_distribution`. -/
def MetricDistribution.validateFields (mn mx md p25 p75 p90 mean sd : ℚ)
    (sample_size : Int) : Except String MetricDistribution := do
  let sample_size ← checkGeI "sample_size" 1 sample_size
  let self : MetricDistribution := ⟨mn, mx, md, p25, p75, p90, mean, sd, sample_size⟩
  if self.max < self.min then
    .error "max must be greater than or equal to min"
  else if ¬(self.min ≤ self.median ∧ self.median ≤ self.max) then
    .error "median must be between min and max"
  else
    .ok self

def MetricDistribution.parse (v : Value) : Except String MetricDistribution := do
  let d ← asDict v
  let mn ← reqField d "min" >>= asFloat
  let mx ← reqField d "max" >>= asFloat
  let md ← reqField d "median" >>= asFloat
  let p25 ← reqField d "p25" >>= asFloat
  let p75 ← reqField d "p75" >>= asFloat
  let p90 ← reqField d "p90" >>= asFloat
  let mean ← reqField d "mean" >>= asFloat
  let sd ← reqField d "std_dev" >>= asFloat
  let sample_size ← reqField d "sample_size" >>= asInt
  MetricDistribution.validateFields mn mx md p25 p75 p90 mean sd sample_size

structure AnalysisWeightings where
  market_opportunity : ℚ
  team : ℚ
  traction : ℚ
  product : ℚ
  competitive_position : ℚ

/-- Field constraints (each weight in `[0, 100]`) followed by
`validate_weightings_sum` (`abs(total - 100.0) > 0.01` raises). -/
def AnalysisWeightings.validateFields (market_opportunity team traction product
    competitive_position : ℚ) : Except String AnalysisWeightings := do
  let market_opportunity ← checkGeQ "market_opportunity" 0 market_opportunity
  let market_opportunity ← checkLeQ "market_opportunity" 100 market_opportunity
  let team ← checkGeQ "team" 0 team
  let team ← checkLeQ "team" 100 team
  let traction ← checkGeQ "traction" 0 traction
  let traction ← checkLeQ "traction" 100 traction
  let product ← checkGeQ "product" 0 product
  let product ← checkLeQ "product" 100 product
  let competitive_position ← checkGeQ "competitive_position" 0 competitive_position
  let competitive_position ← checkLeQ "competitive_position" 100 competitive_position
  let self : AnalysisWeightings := ⟨market_opportunity, team, traction, product,
    competitive_position⟩
  let total := self.market_opportunity + self.team + self.traction + self.product +
    self.competitive_position
  if |total - 100| > 0.01 then
    .error ("Weightings must sum to 100%, got " ++ toString total ++ "%")
  else
    .ok self

def AnalysisWeightings.parse (v : Value) : Except String AnalysisWeightings := do
  let d ← asDict v
  let market_opportunity ← defFloatField d "market_opportunity" 25
  let team ← defFloatField d "team" 25
  let traction ← defFloatField d "traction" 20
  let product ← defFloatField d "product" 15
  let competitive_position ← defFloatField d "competitive_position" 15
  AnalysisWeightings.validateFields market_opportunity team traction product
    competitive_position

def AnalysisWeightings.dump (w : AnalysisWeightings) : Value :=
  .vdict [("market_opportunity", .vnum w.market_opportunity), ("team", .vnum w.team),
    ("traction", .vnum w.traction), ("product", .vnum w.product),
    ("competitive_position", .vnum w.competitive_position)]

def AnalysisWeightings.total (w : AnalysisWeightings) : ℚ :=
  w.market_opportunity + w.team + w.traction + w.product + w.competitive_position

def AnalysisWeightings.valid (w : AnalysisWeightings) : Bool :=
  decide (0 ≤ w.market_opportunity) && decide (w.market_opportunity ≤ 100) &&
  decide (0 ≤ w.team) && decide (w.team ≤ 100) &&
  decide (0 ≤ w.traction) && decide (w.traction ≤ 100) &&
  decide (0 ≤ w.product) && decide (w.product ≤ 100) &&
  decide (0 ≤ w.competitive_position) && decide (w.competitive_position ≤ 100) &&
  !(decide (|w.total - 100| > 0.01))

structure DealMemoSummary where
  company_name : String
  one_liner : String
  sector : String
  stage : FundingStage
  signal_score : ℚ
  recommendation : RecommendationType
  confidence_level : ℚ
  last_updated : Int

def DealMemoSummary.parse (v : Value) : Except String DealMemoSummary := do
  let d ← asDict v
  let company_name ← reqField d "company_name" >>= asStr
  let company_name ← checkMinLen "company_name" 1 company_name
  let company_name ← checkMaxLen "company_name" 200 company_name
  let one_liner ← reqField d "one_liner" >>= asStr
  let one_liner ← checkMinLen "one_liner" 10 one_liner
  let one_liner ← checkMaxLen "one_liner" 500 one_liner
  let sector ← reqField d "sector" >>= asStr
  let sector ← checkMinLen "sector" 1 sector
  let sector ← checkMaxLen "sector" 100 sector
  let stage ← reqField d "stage" >>= asStage
  let signal_score ← reqField d "signal_score" >>= asFloat
  let signal_score ← checkGeQ "signal_score" 0 signal_score
  let signal_score ← checkLeQ "signal_score" 100 signal_score
  let recommendation ← reqField d "recommendation" >>= asRecommendation
  let confidence_level ← reqField d "confidence_level" >>= asFloat
  let confidence_level ← checkGeQ "confidence_level" 0 confidence_level
  let confidence_level ← checkLeQ "confidence_level" 1 confidence_level
  let last_updated ← reqField d "last_updated" >>= asDatetime
  return ⟨company_name, one_liner, sector, stage, signal_score, recommendation,
    confidence_level, last_updated⟩

def DealMemoSummary.dump (s : DealMemoSummary) : Value :=
  .vdict [("company_name", .vstr s.company_name), ("one_liner", .vstr s.one_liner),
    ("sector", .vstr s.sector), ("stage", .vstr s.stage.pyStr),
    ("signal_score", .vnum s.signal_score),
    ("recommendation", .vstr s.recommendation.pyStr),
    ("confidence_level", .vnum s.confidence_level),
    ("last_updated", .vint s.last_updated)]

def DealMemoSummary.valid (s : DealMemoSummary) : Bool :=
  decide (1 ≤ s.company_name.length) && decide (s.company_name.length ≤ 200) &&
  decide (10 ≤ s.one_liner.length) && decide (s.one_liner.length ≤ 500) &&
  decide (1 ≤ s.sector.length) && decide (s.sector.length ≤ 100) &&
  decide (0 ≤ s.signal_score) && decide (s.signal_score ≤ 100) &&
  decide (0 ≤ s.confidence_level) && decide (s.confidence_level ≤ 1)

structure RevenueProjection where
  year1 : ℚ
  year3 : ℚ
  year5 : ℚ

/-- Field constraints (each year `≥ 0`) followed by `validate_revenue_progression`. -/
def RevenueProjection.validateFields (year1 year3 year5 : ℚ) :
    Except String RevenueProjection := do
  let year1 ← checkGeQ "year1" 0 year1
  let year3 ← checkGeQ "year3" 0 year3
  let year5 ← checkGeQ "year5" 0 year5
  let self : RevenueProjection := ⟨year1, year3, year5⟩
  if self.year3 < self.year1 then
    .error "year3 projection should not be less than year1"
  else if self.year5 < self.year3 then
    .error "year5 projection should not be less than year3"
  else
    .ok self

def RevenueProjection.parse (v : Value) : Except String RevenueProjection := do
  let d ← asDict v
  let year1 ← reqField d "year1" >>= asFloat
  let year3 ← reqField d "year3" >>= asFloat
  let year5 ← reqField d "year5" >>= asFloat
  RevenueProjection.validateFields year1 year3 year5

def RevenueProjection.dump (r : RevenueProjection) : Value :=
  .vdict [("year1", .vnum r.year1), ("year3", .vnum r.year3), ("year5", .vnum r.year5)]

def RevenueProjection.valid (r : RevenueProjection) : Bool :=
  decide (0 ≤ r.year1) && decide (0 ≤ r.year3) && decide (0 ≤ r.year5) &&
  !(decide (r.year3 < r.year1)) && !(decide (r.year5 < r.year3))

structure GrowthPotential where
  upside_summary : String
  growth_timeline : String
  key_drivers : List String
  scalability_factors : List String
  market_expansion_opportunity : String
  revenue_projection : RevenueProjection

def GrowthPotential.parse (v : Value) : Except String GrowthPotential := do
  let d ← asDict v
  let upside_summary ← reqField d "upside_summary" >>= asStr
  let upside_summary ← checkMinLen "upside_summary" 50 upside_summary
  let upside_summary ← checkMaxLen "upside_summary" 2000 upside_summary
  let growth_timeline ← reqField d "growth_timeline" >>= asStr
  let growth_timeline ← checkMinLen "growth_timeline" 20 growth_timeline
  let growth_timeline ← checkMaxLen "growth_timeline" 1000 growth_timeline
  let key_drivers ← reqField d "key_drivers" >>= asList
  let key_drivers ← key_drivers.mapM asStr
  let key_drivers ← checkMinItems "key_drivers" 1 key_drivers
  let key_drivers ← checkItemsLen 5 200
    "Each key driver must be between 5 and 200 characters" key_drivers
  let scalability_factors ← reqField d "scalability_factors" >>= asList
  let scalability_factors ← scalability_factors.mapM asStr
  let scalability_factors ← checkMinItems "scalability_factors" 1 scalability_factors
  let scalability_factors ← checkItemsLen 5 200
    "Each scalability factor must be between 5 and 200 characters" scalability_factors
  let market_expansion_opportunity ← reqField d "market_expansion_opportunity" >>= asStr
  let market_expansion_opportunity ←
    checkMinLen "market_expansion_opportunity" 20 market_expansion_opportunity
  let market_expansion_opportunity ←
    checkMaxLen "market_expansion_opportunity" 1000 market_expansion_opportunity
  let revenue_projection ← reqField d "revenue_projection" >>= RevenueProjection.parse
  return ⟨upside_summary, growth_timeline, key_drivers, scalability_factors,
    market_expansion_opportunity, revenue_projection⟩

def GrowthPotential.dump (g : GrowthPotential) : Value :=
  .vdict [("upside_summary", .vstr g.upside_summary),
    ("growth_timeline", .vstr g.growth_timeline),
    ("key_drivers", dumpStrList g.key_drivers),
    ("scalability_factors", dumpStrList g.scalability_factors),
    ("market_expansion_opportunity", .vstr g.market_expansion_opportunity),
    ("revenue_projection", g.revenue_projection.dump)]

def GrowthPotential.valid (g : GrowthPotential) : Bool :=
  decide (50 ≤ g.upside_summary.length) && decide (g.upside_summary.length ≤ 2000) &&
  decide (20 ≤ g.growth_timeline.length) && decide (g.growth_timeline.length ≤ 1000) &&
  decide (1 ≤ g.key_drivers.length) && itemsLenOk 5 200 g.key_drivers &&
  decide (1 ≤ g.scalability_factors.length) && itemsLenOk 5 200 g.scalability_factors &&
  decide (20 ≤ g.market_expansion_opportunity.length) &&
  decide (g.market_expansion_opportunity.length ≤ 1000) &&
  g.revenue_projection.valid

structure RiskAssessment where
  overall_risk_score : ℚ
  high_priority_risks : List RiskFlag
  medium_priority_risks : List RiskFlag
  low_priority_risks : List RiskFlag
  risk_mitigation_plan : List String

def RiskAssessment.parse (v : Value) : Except String RiskAssessment := do
  let d ← asDict v
  let overall_risk_score ← reqField d "overall_risk_score" >>= asFloat
  let overall_risk_score ← checkGeQ "overall_risk_score" 0 overall_risk_score
  let overall_risk_score ← checkLeQ "overall_risk_score" 100 overall_risk_score
  let high_priority_risks ← reqField d "high_priority_risks" >>= asList
  let high_priority_risks ← high_priority_risks.mapM RiskFlag.parse
  let medium_priority_risks ← reqField d "medium_priority_risks" >>= asList
  let medium_priority_risks ← medium_priority_risks.mapM RiskFlag.parse
  let low_priority_risks ← reqField d "low_priority_risks" >>= asList
  let low_priority_risks ← low_priority_risks.mapM RiskFlag.parse
  let risk_mitigation_plan ← reqField d "risk_mitigation_plan" >>= asList
  let risk_mitigation_plan ← risk_mitigation_plan.mapM asStr
  let risk_mitigation_plan ← checkMinItems "risk_mitigation_plan" 1 risk_mitigation_plan
  let risk_mitigation_plan ← checkItemsLen 10 500
    "Each mitigation plan item must be between 10 and 500 characters" risk_mitigation_plan
  return ⟨overall_risk_score, high_priority_risks, medium_priority_risks,
    low_priority_risks, risk_mitigation_plan⟩

def RiskAssessment.dump (r : RiskAssessment) : Value :=
  .vdict [("overall_risk_score", .vnum r.overall_risk_score),
    ("high_priority_risks", .vlist (r.high_priority_risks.map RiskFlag.dump)),
    ("medium_priority_risks", .vlist (r.medium_priority_risks.map RiskFlag.dump)),
    ("low_priority_risks", .vlist (r.low_priority_risks.map RiskFlag.dump)),
    ("risk_mitigation_plan", dumpStrList r.risk_mitigation_plan)]

def RiskAssessment.valid (r : RiskAssessment) : Bool :=
  decide (0 ≤ r.overall_risk_score) && decide (r.overall_risk_score ≤ 100) &&
  r.high_priority_risks.all RiskFlag.valid &&
  r.medium_priority_risks.all RiskFlag.valid &&
  r.low_priority_risks.all RiskFlag.valid &&
  decide (1 ≤ r.risk_mitigation_plan.length) &&
  itemsLenOk 10 500 r.risk_mitigation_plan

structure InvestmentRecommendation where
  narrative : String
  investment_thesis : String
  ideal_check_size : String
  ideal_valuation_cap : String
  suggested_terms : List String
  key_diligence_questions : List String
  follow_up_actions : List String
  timeline_to_decision : String

def InvestmentRecommendation.parse (v : Value) : Except String InvestmentRecommendation := do
  let d ← asDict v
  let narrative ← reqField d "narrative" >>= asStr
  let narrative ← checkMinLen "narrative" 100 narrative
  let narrative ← checkMaxLen "narrative" 3000 narrative
  let investment_thesis ← reqField d "investment_thesis" >>= asStr
  let investment_thesis ← checkMinLen "investment_thesis" 50 investment_thesis
  let investment_thesis ← checkMaxLen "investment_thesis" 2000 investment_thesis
  let ideal_check_size ← reqField d "ideal_check_size" >>= asStr
  let ideal_check_size ← checkMinLen "ideal_check_size" 5 ideal_check_size
  let ideal_check_size ← checkMaxLen "ideal_check_size" 100 ideal_check_size
  let ideal_valuation_cap ← reqField d "ideal_valuation_cap" >>= asStr
  let ideal_valuation_cap ← checkMinLen "ideal_valuation_cap" 5 ideal_valuation_cap
  let ideal_valuation_cap ← checkMaxLen "ideal_valuation_cap" 100 ideal_valuation_cap
  let suggested_terms ← reqField d "suggested_terms" >>= asList
  let suggested_terms ← suggested_terms.mapM asStr
  let suggested_terms ← checkMinItems "suggested_terms" 1 suggested_terms
  let suggested_terms ← checkItemsLen 5 200
    "Each suggested term must be between 5 and 200 characters" suggested_terms
  let key_diligence_questions ← reqField d "key_diligence_questions" >>= asList
  let key_diligence_questions ← key_diligence_questions.mapM asStr
  let key_diligence_questions ← checkMinItems "key_diligence_questions" 1 key_diligence_questions
  let key_diligence_questions ← checkItemsLen 10 300
    "Each diligence question must be between 10 and 300 characters" key_diligence_questions
  let follow_up_actions ← reqField d "follow_up_actions" >>= asList
  let follow_up_actions ← follow_up_actions.mapM asStr
  let follow_up_actions ← checkMinItems "follow_up_actions" 1 follow_up_actions
  let follow_up_actions ← checkItemsLen 5 200
    "Each follow-up action must be between 5 and 200 characters" follow_up_actions
  let timeline_to_decision ← reqField d "timeline_to_decision" >>= asStr
  let timeline_to_decision ← checkMinLen "timeline_to_decision" 5 timeline_to_decision
  let timeline_to_decision ← checkMaxLen "timeline_to_decision" 100 timeline_to_decision
  return ⟨narrative, investment_thesis, ideal_check_size, ideal_valuation_cap,
    suggested_terms, key_diligence_questions, follow_up_actions, timeline_to_decision⟩

def InvestmentRecommendation.dump (r : InvestmentRecommendation) : Value :=
  .vdict [("narrative", .vstr r.narrative),
    ("investment_thesis", .vstr r.investment_thesis),
    ("ideal_check_size", .vstr r.ideal_check_size),
    ("ideal_valuation_cap", .vstr r.ideal_valuation_cap),
    ("suggested_terms", dumpStrList r.suggested_terms),
    ("key_diligence_questions", dumpStrList r.key_diligence_questions),
    ("follow_up_actions", dumpStrList r.follow_up_actions),
    ("timeline_to_decision", .vstr r.timeline_to_decision)]

def InvestmentRecommendation.valid (r : InvestmentRecommendation) : Bool :=
  decide (100 ≤ r.narrative.length) && decide (r.narrative.length ≤ 3000) &&
  decide (50 ≤ r.investment_thesis.length) && decide (r.investment_thesis.length ≤ 2000) &&
  decide (5 ≤ r.ideal_check_size.length) && decide (r.ideal_check_size.length ≤ 100) &&
  decide (5 ≤ r.ideal_valuation_cap.length) && decide (r.ideal_valuation_cap.length ≤ 100) &&
  decide (1 ≤ r.suggested_terms.length) && itemsLenOk 5 200 r.suggested_terms &&
  decide (1 ≤ r.key_diligence_questions.length) &&
  itemsLenOk 10 300 r.key_diligence_questions &&
  decide (1 ≤ r.follow_up_actions.length) && itemsLenOk 5 200 r.follow_up_actions &&
  decide (5 ≤ r.timeline_to_decision.length) && decide (r.timeline_to_decision.length ≤ 100)

structure DealMemoMetadata where
  generated_by : String
  analysis_version : String
  source_documents : List String
  processing_time : ℚ
  data_quality : ℚ

def DealMemoMetadata.parse (v : Value) : Except String DealMemoMetadata := do
  let d ← asDict v
  let generated_by ← reqField d "generated_by" >>= asStr
  let generated_by ← checkMinLen "generated_by" 1 generated_by
  let generated_by ← checkMaxLen "generated_by" 100 generated_by
  let analysis_version ← reqField d "analysis_version" >>= asStr
  let analysis_version ← checkMinLen "analysis_version" 1 analysis_version
  let analysis_version ← checkMaxLen "analysis_version" 20 analysis_version
  let source_documents ← reqField d "source_documents" >>= asList
  let source_documents ← source_documents.mapM asStr
  let processing_time ← reqField d "processing_time" >>= asFloat
  let processing_time ← checkGeQ "processing_time" 0 processing_time
  let data_quality ← reqField d "data_quality" >>= asFloat
  let data_quality ← checkGeQ "data_quality" 0 data_quality
  let data_quality ← checkLeQ "data_quality" 1 data_quality
  return ⟨generated_by, analysis_version, source_documents, processing_time, data_quality⟩

def DealMemoMetadata.dump (m : DealMemoMetadata) : Value :=
  .vdict [("generated_by", .vstr m.generated_by),
    ("analysis_version", .vstr m.analysis_version),
    ("source_documents", dumpStrList m.source_documents),
    ("processing_time", .vnum m.processing_time),
    ("data_quality", .vnum m.data_quality)]

def DealMemoMetadata.valid (m : DealMemoMetadata) : Bool :=
  decide (1 ≤ m.generated_by.length) && decide (m.generated_by.length ≤ 100) &&
  decide (1 ≤ m.analysis_version.length) && decide (m.analysis_version.length ≤ 20) &&
  decide (0 ≤ m.processing_time) &&
  decide (0 ≤ m.data_quality) && decide (m.data_quality ≤ 1)

structure BenchmarkComparison where
  metric : String
  company_value : ℚ
  sector_median : ℚ
  percentile : ℚ
  interpretation : String
  context : String
  recommendation : Option String

def BenchmarkComparison.parse (v : Value) : Except String BenchmarkComparison := do
  let d ← asDict v
  let metric ← reqField d "metric" >>= asStr
  let metric ← checkMinLen "metric" 1 metric
  let metric ← checkMaxLen "metric" 100 metric
  let company_value ← reqField d "company_value" >>= asFloat
  let sector_median ← reqField d "sector_median" >>= asFloat
  let percentile ← reqField d "percentile" >>= asFloat
  let percentile ← checkGeQ "percentile" 0 percentile
  let percentile ← checkLeQ "percentile" 100 percentile
  let interpretation ← reqField d "interpretation" >>= asStr
  let interpretation ← checkMinLen "interpretation" 10 interpretation
  let interpretation ← checkMaxLen "interpretation" 500 interpretation
  let context ← reqField d "context" >>= asStr
  let context ← checkMinLen "context" 10 context
  let context ← checkMaxLen "context" 500 context
  let recommendation ← optField d "recommendation" asStr
  let recommendation ← checkOpt (checkMaxLen "recommendation" 500) recommendation
  return ⟨metric, company_value, sector_median, percentile, interpretation, context,
    recommendation⟩

def BenchmarkComparison.dump (b : BenchmarkComparison) : Value :=
  .vdict [("metric", .vstr b.metric), ("company_value", .vnum b.company_value),
    ("sector_median", .vnum b.sector_median), ("percentile", .vnum b.percentile),
    ("interpretation", .vstr b.interpretation), ("context", .vstr b.context),
    ("recommendation", dumpOpt Value.vstr b.recommendation)]

def BenchmarkComparison.valid (b : BenchmarkComparison) : Bool :=
  decide (1 ≤ b.metric.length) && decide (b.metric.length ≤ 100) &&
  decide (0 ≤ b.percentile) && decide (b.percentile ≤ 100) &&
  decide (10 ≤ b.interpretation.length) && decide (b.interpretation.length ≤ 500) &&
  decide (10 ≤ b.context.length) && decide (b.context.length ≤ 500) &&
  b.recommendation.all fun s => decide (s.length ≤ 500)

structure AegisDealMemo where
  summary : DealMemoSummary
  key_benchmarks : List BenchmarkComparison
  growth_potential : GrowthPotential
  risk_assessment : RiskAssessment
  investment_recommendation : InvestmentRecommendation
  analysis_weightings : AnalysisWeightings
  metadata : DealMemoMetadata

def AegisDealMemo.parse (v : Value) : Except String AegisDealMemo := do
  let d ← asDict v
  let summary ← reqField d "summary" >>= DealMemoSummary.parse
  let key_benchmarks ← reqField d "key_benchmarks" >>= asList
  let key_benchmarks ← key_benchmarks.mapM BenchmarkComparison.parse
  let growth_potential ← reqField d "growth_potential" >>= GrowthPotential.parse
  let risk_assessment ← reqField d "risk_assessment" >>= RiskAssessment.parse
  let investment_recommendation ←
    reqField d "investment_recommendation" >>= InvestmentRecommendation.parse
  let analysis_weightings ← reqField d "analysis_weightings" >>= AnalysisWeightings.parse
  let metadata ← reqField d "metadata" >>= DealMemoMetadata.parse
  return ⟨summary, key_benchmarks, growth_potential, risk_assessment,
    investment_recommendation, analysis_weightings, metadata⟩

def AegisDealMemo.dump (m : AegisDealMemo) : Value :=
  .vdict [("summary", m.summary.dump),
    ("key_benchmarks", .vlist (m.key_benchmarks.map BenchmarkComparison.dump)),
    ("growth_potential", m.growth_potential.dump),
    ("risk_assessment", m.risk_assessment.dump),
    ("investment_recommendation", m.investment_recommendation.dump),
    ("analysis_weightings", m.analysis_weightings.dump),
    ("metadata", m.metadata.dump)]

def AegisDealMemo.valid (m : AegisDealMemo) : Bool :=
  m.summary.valid && m.key_benchmarks.all BenchmarkComparison.valid &&
  m.growth_potential.valid && m.risk_assessment.valid &&
  m.investment_recommendation.valid && m.analysis_weightings.valid &&
  m.metadata.valid

structure DealMemo where
  id : String
  created_at : Int
  updated_at : Int
  aegis_deal_memo : AegisDealMemo

def DealMemo.parse (v : Value) : Except String DealMemo := do
  let d ← asDict v
  let id ← reqField d "id" >>= asStr
  let created_at ← reqField d "created_at" >>= asDatetime
  let updated_at ← reqField d "updated_at" >>= asDatetime
  let aegis_deal_memo ← reqField d "aegis_deal_memo" >>= AegisDealMemo.parse
  return ⟨id, created_at, updated_at, aegis_deal_memo⟩

def DealMemo.dump (m : DealMemo) : Value :=
  .vdict [("id", .vstr m.id), ("created_at", .vint m.created_at),
    ("updated_at", .vint m.updated_at), ("aegis_deal_memo", m.aegis_deal_memo.dump)]

def DealMemo.valid (m : DealMemo) : Bool :=
  m.aegis_deal_memo.valid

/- ### Validation utility functions -/

/-- `validate_deal_memo`: re-raise any construction failure under one prefix. -/
def validate_deal_memo (data : Dict) : Except String DealMemo :=
  match DealMemo.parse (.vdict data) with
  | .ok m => .ok m
  | .error e => .error ("Deal memo validation failed: " ++ e)

/-- `validate_company_profile` (with the class-definition-time year made explicit). -/
def validate_company_profile (classDefYear : Int) (data : Dict) :
    Except String CompanyProfile :=
  match CompanyProfile.parse classDefYear (.vdict data) with
  | .ok p => .ok p
  | .error e => .error ("Company profile validation failed: " ++ e)

/-- `validate_investment_metrics`. -/
def validate_investment_metrics (data : Dict) : Except String InvestmentMetrics :=
  match InvestmentMetrics.parse (.vdict data) with
  | .ok m => .ok m
  | .error e => .error ("Investment metrics validation failed: " ++ e)

/-- One entry of the list returned by `get_validation_errors`. -/
structure ErrorEntry where
  msg : String
  type : String
deriving DecidableEq

/-- `get_validation_errors`: attempt construction; an exception becomes a
structured record list (the embedding reports the first violation; pydantic's
`e.errors()` list begins with it). -/
def get_validation_errors (model_class : α → Except String β) (data : α) :
    List ErrorEntry :=
  match model_class data with
  | .ok _ => []
  | .error e => [⟨e, "unknown_error"⟩]

def sumVals (weightings : List (String × ℚ)) : ℚ :=
  (weightings.map Prod.snd).sum

/-- `normalize_weightings`: rescale so the values sum to 100%. -/
def normalize_weightings (weightings : List (String × ℚ)) :
    Except String (List (String × ℚ)) :=
  let total := sumVals weightings
  if total = 0 then .error "All weightings cannot be zero"
  else .ok (weightings.map fun kv => (kv.1, kv.2 / total * 100))

/- ### Concrete documents used as witnesses (mirroring the repository's test fixtures) -/

def sampleSummary : DealMemoSummary :=
  ⟨"TechStartup Inc", "Revolutionary AI platform for enterprise automation",
    "Enterprise Software", .seriesA, 85, .buy, 1, 1700000000⟩

def sampleBenchmark : BenchmarkComparison :=
  ⟨"ARR", 1000000, 2000000, 40, "Below median but showing strong growth trajectory",
    "Company is earlier stage than typical Series A", some "Monitor growth rate closely"⟩

def sampleGrowth : GrowthPotential :=
  ⟨"Strong potential for 10x growth over 5 years driven by market expansion and product development.",
    "Expect 3x growth in next 18 months with Series B funding",
    ["Market expansion", "Product development", "Team scaling"],
    ["Cloud-native architecture", "API-first design"],
    "Large addressable market with low penetration",
    ⟨2000000, 10000000, 50000000⟩⟩

def sampleRiskAssessment : RiskAssessment :=
  ⟨35, [], [], [],
    ["Regular customer feedback collection", "Competitive monitoring plan"]⟩

def sampleRecommendation : InvestmentRecommendation :=
  ⟨"TechStartup Inc represents a compelling investment opportunity in the rapidly growing enterprise automation market. The company has demonstrated strong product-market fit with impressive early traction and a world-class founding team.",
    "Enterprise automation is a massive market opportunity with TechStartup positioned to capture significant market share.",
    "$2-5M", "$25M cap",
    ["Board seat", "Pro rata rights", "Anti-dilution protection"],
    ["What is the customer acquisition cost trend?",
      "How defensible is the technology moat?",
      "What are the key competitive threats?"],
    ["Reference calls with customers", "Technical deep dive"],
    "2-3 weeks"⟩

def sampleWeightings : AnalysisWeightings := ⟨25, 25, 20, 15, 15⟩

def sampleMetadata : DealMemoMetadata :=
  ⟨"Aegis AI v1.0", "1.0.0", ["pitch_deck.pdf", "transcript.txt"], 45, 1⟩

def sampleAegisDealMemo : AegisDealMemo :=
  ⟨sampleSummary, [sampleBenchmark], sampleGrowth, sampleRiskAssessment,
    sampleRecommendation, sampleWeightings, sampleMetadata⟩

def sampleDealMemo : DealMemo :=
  ⟨"00000000-0000-0000-0000-000000000001", 1700000000, 1700000001, sampleAegisDealMemo⟩

/-- A company-profile dict (the test fixture), founded in 2026. -/
def companyDict2026 : Dict :=
  [("id", .vstr "00000000-0000-0000-0000-000000000002"),
    ("created_at", .vint 1700000000), ("updated_at", .vint 1700000000),
    ("name", .vstr "TechStartup Inc"),
    ("one_liner", .vstr "Revolutionary AI platform for enterprise automation"),
    ("sector", .vstr "Enterprise Software"), ("stage", .vstr "series-a"),
    ("founded_year", .vint 2026), ("location", .vstr "San Francisco, CA")]

/-- Weightings input whose sum is 125 (the diagnostic-errors test fixture). -/
def badWeightingsDict : Dict :=
  [("market_opportunity", .vnum 50), ("team", .vnum 25), ("traction", .vnum 20),
    ("product", .vnum 15), ("competitive_position", .vnum 15)]

/- ### Reduction lemmas for the `Except` monad -/

theorem bindOkE (a : α) (f : α → Except String β) : (Except.ok a >>= f) = f a := rfl

theorem bindErrE (e : String) (f : α → Except String β) :
    ((Except.error e : Except String α) >>= f) = .error e := rfl

theorem mapOkE (f : α → β) (a : α) :
    Except.map f (.ok a : Except String α) = .ok (f a) := rfl

theorem pureE (a : α) : (pure a : Except String α) = .ok a := rfl

/- ### Substring facts -/

theorem infixAppendLeft {l r pat : List Char} (h : pat <:+: l) : pat <:+: l ++ r := by
  obtain ⟨u, v, rfl⟩ := h
  exact ⟨u, v ++ r, by simp⟩

/- ### Enum serialization is inverted by enum parsing -/

theorem fundingStageRoundtrip (s : FundingStage) : FundingStage.ofStr s.pyStr = .ok s := by
  cases s <;> rfl

theorem recommendationTypeRoundtrip (r : RecommendationType) :
    RecommendationType.ofStr r.pyStr = .ok r := by
  cases r <;> rfl

theorem riskTypeRoundtrip (t : RiskType) : RiskType.ofStr t.pyStr = .ok t := by
  cases t <;> rfl

theorem riskSeverityRoundtrip (s : RiskSeverity) : RiskSeverity.ofStr s.pyStr = .ok s := by
  cases s <;> rfl

/- ### List / Option serialization is inverted by parsing -/

theorem mapM_loop_asStr (l acc : List String) :
    List.mapM.loop asStr (l.map Value.vstr) acc = .ok (acc.reverse ++ l) := by
  induction l generalizing acc with
  | nil => simp [List.mapM.loop, pureE]
  | cons a l ih =>
    simp only [List.map_cons, List.mapM.loop, asStr, bindOkE, ih, List.reverse_cons,
      List.append_assoc, List.cons_append, List.nil_append]

theorem mapM_asStr (l : List String) : (l.map Value.vstr).mapM asStr = .ok l := by
  have h := mapM_loop_asStr l []
  simpa [List.mapM] using h

theorem parse_dumpStrList (l : List String) :
    (asList (dumpStrList l) >>= fun vs => vs.mapM asStr) = .ok l := by
  simp only [dumpStrList, asList, bindOkE, mapM_asStr]

theorem parseOptVal_vstr (o : Option String) :
    parseOptVal asStr (dumpOpt Value.vstr o) = .ok o := by
  cases o <;> rfl

theorem parseOptVal_strList (o : Option (List String)) :
    parseOptVal asStrList (dumpOpt dumpStrList o) = .ok o := by
  cases o with
  | none => rfl
  | some l =>
    simp only [dumpOpt, dumpStrList, parseOptVal, asStrList, asList, bindOkE,
      mapM_asStr, mapOkE]

theorem mapM_loop_parse_dump {α : Type} (p : Value → Except String α)
    (dp : α → Value) (vd : α → Bool) (hpd : ∀ x, vd x = true → p (dp x) = .ok x)
    (l : List α) (h : l.all vd = true) (acc : List α) :
    List.mapM.loop p (l.map dp) acc = .ok (acc.reverse ++ l) := by
  induction l generalizing acc with
  | nil => simp [List.mapM.loop, pureE]
  | cons a l ih =>
    simp only [List.all_cons, Bool.and_eq_true] at h
    simp only [List.map_cons, List.mapM.loop, hpd a h.1, bindOkE, ih h.2,
      List.reverse_cons, List.append_assoc, List.cons_append, List.nil_append]

theorem mapM_parse_dump {α : Type} (p : Value → Except String α)
    (dp : α → Value) (vd : α → Bool) (hpd : ∀ x, vd x = true → p (dp x) = .ok x)
    (l : List α) (h : l.all vd = true) : (l.map dp).mapM p = .ok l := by
  have hl := mapM_loop_parse_dump p dp vd hpd l h []
  simpa [List.mapM] using hl

theorem checkOpt_maxLen (field : String) (hi : Nat) (o : Option String)
    (h : (o.all fun s => decide (s.length ≤ hi)) = true) :
    checkOpt (checkMaxLen field hi) o = .ok o := by
  cases o with
  | none => rfl
  | some s => simp_all [checkOpt, checkMaxLen, Option.all, mapOkE]

/- ### Parsing inverts serialization, entity by entity -/

theorem revenueProjectionParseDump (r : RevenueProjection) (h : r.valid = true) :
    RevenueProjection.parse r.dump = .ok r := by
  revert h
  simp only [RevenueProjection.valid, Bool.and_eq_true, decide_eq_true_eq,
    Bool.not_eq_true', decide_eq_false_iff_not, and_imp]
  intro h1 h2 h3 h4 h5
  simp [RevenueProjection.parse, RevenueProjection.dump, asDict, reqField, dictGet,
    asFloat, RevenueProjection.validateFields, checkGeQ, bindOkE, bindErrE,
    h1, h2, h3, h4, h5]

theorem dealMemoSummaryParseDump (s : DealMemoSummary) (h : s.valid = true) :
    DealMemoSummary.parse s.dump = .ok s := by
  revert h
  simp only [DealMemoSummary.valid, Bool.and_eq_true, decide_eq_true_eq, and_imp]
  intro h1 h2 h3 h4 h5 h6 h7 h8 h9 h10
  simp [DealMemoSummary.parse, DealMemoSummary.dump, asDict, reqField, dictGet,
    asStr, asFloat, asDatetime, asStage, asRecommendation,
    fundingStageRoundtrip, recommendationTypeRoundtrip,
    checkMinLen, checkMaxLen, checkGeQ, checkLeQ, bindOkE, bindErrE, pureE,
    h1, h2, h3, h4, h5, h6, h7, h8, h9, h10]

theorem dealMemoMetadataParseDump (m : DealMemoMetadata) (h : m.valid = true) :
    DealMemoMetadata.parse m.dump = .ok m := by
  revert h
  simp only [DealMemoMetadata.valid, Bool.and_eq_true, decide_eq_true_eq, and_imp]
  intro h1 h2 h3 h4 h5 h6 h7
  simp [DealMemoMetadata.parse, DealMemoMetadata.dump, asDict, reqField, dictGet,
    asStr, asFloat, checkMinLen, checkMaxLen, checkGeQ, checkLeQ, dumpStrList,
    asList, mapM_loop_asStr, mapM_asStr, bindOkE, bindErrE, pureE,
    h1, h2, h3, h4, h5, h6, h7]

theorem analysisWeightingsParseDump (w : AnalysisWeightings) (h : w.valid = true) :
    AnalysisWeightings.parse w.dump = .ok w := by
  revert h
  simp only [AnalysisWeightings.valid, AnalysisWeightings.total, Bool.and_eq_true,
    decide_eq_true_eq, Bool.not_eq_true', decide_eq_false_iff_not, and_imp]
  intro h1 h2 h3 h4 h5 h6 h7 h8 h9 h10 h11
  simp [AnalysisWeightings.parse, AnalysisWeightings.dump, asDict, reqField, dictGet,
    defFloatField, asFloat, AnalysisWeightings.validateFields, checkGeQ, checkLeQ,
    bindOkE, bindErrE, h1, h2, h3, h4, h5, h6, h7, h8, h9, h10, h11]

theorem benchmarkComparisonParseDump (b : BenchmarkComparison) (h : b.valid = true) :
    BenchmarkComparison.parse b.dump = .ok b := by
  revert h
  simp only [BenchmarkComparison.valid, Bool.and_eq_true, decide_eq_true_eq, and_imp]
  intro h1 h2 h3 h4 h5 h6 h7 h8 h9
  simp [BenchmarkComparison.parse, BenchmarkComparison.dump, asDict, reqField, dictGet,
    asStr, asFloat, optField, parseOptVal_vstr, checkOpt_maxLen _ _ _ h9,
    checkMinLen, checkMaxLen, checkGeQ, checkLeQ, bindOkE, bindErrE, pureE,
    h1, h2, h3, h4, h5, h6, h7, h8]

theorem riskFlagParseDump (r : RiskFlag) (h : r.valid = true) :
    RiskFlag.parse r.dump = .ok r := by
  revert h
  simp only [RiskFlag.valid, Bool.and_eq_true, decide_eq_true_eq, and_imp]
  intro h1 h2 h3 h4 h5 h6 h7 h8 h9 h10 h11
  simp [RiskFlag.parse, RiskFlag.dump, asDict, reqField, dictGet, asStr, asFloat,
    asDatetime, asRiskType, asRiskSeverity, riskTypeRoundtrip,
    riskSeverityRoundtrip, checkMinLen, checkMaxLen, checkGeQ, checkLeQ,
    checkLiteral, dumpStrList, asList, mapM_loop_asStr, mapM_asStr, optField,
    parseOptVal_strList, bindOkE, bindErrE, pureE,
    h1, h2, h3, h4, h5, h6, h7, h8, h9, h10, h11]

theorem growthPotentialParseDump (g : GrowthPotential) (h : g.valid = true) :
    GrowthPotential.parse g.dump = .ok g := by
  revert h
  simp only [GrowthPotential.valid, Bool.and_eq_true, decide_eq_true_eq, and_imp]
  intro h1 h2 h3 h4 h5 h6 h7 h8 h9 h10 h11
  simp [GrowthPotential.parse, GrowthPotential.dump, asDict, reqField, dictGet,
    asStr, dumpStrList, asList, mapM_loop_asStr, mapM_asStr, checkMinItems,
    checkItemsLen, checkMinLen, checkMaxLen, revenueProjectionParseDump _ h11,
    bindOkE, bindErrE, pureE, h1, h2, h3, h4, h5, h6, h7, h8, h9, h10]

theorem riskAssessmentParseDump (r : RiskAssessment) (h : r.valid = true) :
    RiskAssessment.parse r.dump = .ok r := by
  revert h
  simp only [RiskAssessment.valid, Bool.and_eq_true, decide_eq_true_eq, and_imp]
  intro h1 h2 h3 h4 h5 h6 h7
  simp [RiskAssessment.parse, RiskAssessment.dump, asDict, reqField, dictGet,
    asFloat, asList, dumpStrList, mapM_loop_asStr, mapM_asStr, checkMinItems,
    checkItemsLen, checkGeQ, checkLeQ,
    mapM_loop_parse_dump RiskFlag.parse RiskFlag.dump RiskFlag.valid
      riskFlagParseDump _ h3,
    mapM_loop_parse_dump RiskFlag.parse RiskFlag.dump RiskFlag.valid
      riskFlagParseDump _ h4,
    mapM_loop_parse_dump RiskFlag.parse RiskFlag.dump RiskFlag.valid
      riskFlagParseDump _ h5,
    bindOkE, bindErrE, pureE, h1, h2, h6, h7]

theorem investmentRecommendationParseDump (r : InvestmentRecommendation)
    (h : r.valid = true) : InvestmentRecommendation.parse r.dump = .ok r := by
  revert h
  simp only [InvestmentRecommendation.valid, Bool.and_eq_true, decide_eq_true_eq, and_imp]
  intro h1 h2 h3 h4 h5 h6 h7 h8 h9 h10 h11 h12 h13 h14 h15 h16
  simp [InvestmentRecommendation.parse, InvestmentRecommendation.dump, asDict,
    reqField, dictGet, asStr, dumpStrList, asList, mapM_loop_asStr, mapM_asStr,
    checkMinItems, checkItemsLen, checkMinLen, checkMaxLen, bindOkE, bindErrE, pureE,
    h1, h2, h3, h4, h5, h6, h7, h8, h9, h10, h11, h12, h13, h14, h15, h16]

theorem aegisDealMemoParseDump (m : AegisDealMemo) (h : m.valid = true) :
    AegisDealMemo.parse m.dump = .ok m := by
  revert h
  simp only [AegisDealMemo.valid, Bool.and_eq_true, and_imp]
  intro h1 h2 h3 h4 h5 h6 h7
  simp [AegisDealMemo.parse, AegisDealMemo.dump, asDict, reqField, dictGet, asList,
    dealMemoSummaryParseDump _ h1,
    mapM_loop_parse_dump BenchmarkComparison.parse BenchmarkComparison.dump
      BenchmarkComparison.valid benchmarkComparisonParseDump _ h2,
    growthPotentialParseDump _ h3, riskAssessmentParseDump _ h4,
    investmentRecommendationParseDump _ h5, analysisWeightingsParseDump _ h6,
    dealMemoMetadataParseDump _ h7, bindOkE, bindErrE, pureE]

theorem dealMemoParseDump (m : DealMemo) (h : m.valid = true) :
    DealMemo.parse m.dump = .ok m := by
  simp only [DealMemo.valid] at h
  simp [DealMemo.parse, DealMemo.dump, asDict, reqField, dictGet, asStr, asDatetime,
    aegisDealMemoParseDump _ h, bindOkE, bindErrE, pureE]

/- ### Arithmetic of the weighting normalizer -/

theorem sumVals_scale (l : List (String × ℚ)) (t : ℚ) :
    sumVals (l.map fun kv => (kv.1, kv.2 / t * 100)) = sumVals l / t * 100 := by
  induction l with
  | nil => simp [sumVals]
  | cons a l ih =>
    simp only [sumVals, List.map_cons, List.sum_cons] at ih ⊢
    rw [ih]
    ring

theorem map_fst_scale (l : List (String × ℚ)) (t : ℚ) :
    (l.map fun kv => (kv.1, kv.2 / t * 100)).map Prod.fst = l.map Prod.fst := by
  induction l with
  | nil => rfl
  | cons a l ih => simp only [List.map_cons, ih]

/- ### Claims -/

/-- C1, counterexample to the claim as stated: the five-tuple
`(150, -50, 0, 0, 0)` sums to exactly 100 (well within the 0.01 tolerance),
yet constructing `AnalysisWeightings` from it fails, because each weight also
carries the per-field bounds `ge=0, le=100`. -/
theorem C1_counterexample :
    |(150 : ℚ) + (-50) + 0 + 0 + 0 - 100| ≤ 0.01 ∧
    exceptOk (AnalysisWeightings.validateFields 150 (-50) 0 0 0) = false := by
  constructor
  · norm_num
  · rfl

/-- C1, amended: for five-tuples whose components each lie within the declared
per-field bounds `[0, 100]`, construction succeeds when the sum is within an
absolute tolerance of 0.01 of 100, and fails with a message containing
"sum to 100" when the sum lies outside that tolerance. -/
theorem C1_weightings_sum_amended (mo t tr p cp : ℚ)
    (h1 : 0 ≤ mo) (h2 : mo ≤ 100) (h3 : 0 ≤ t) (h4 : t ≤ 100)
    (h5 : 0 ≤ tr) (h6 : tr ≤ 100) (h7 : 0 ≤ p) (h8 : p ≤ 100)
    (h9 : 0 ≤ cp) (h10 : cp ≤ 100) :
    (|mo + t + tr + p + cp - 100| ≤ 0.01 →
      exceptOk (AnalysisWeightings.validateFields mo t tr p cp) = true) ∧
    (0.01 < |mo + t + tr + p + cp - 100| →
      ∃ e, AnalysisWeightings.validateFields mo t tr p cp = .error e ∧
        strContains e "sum to 100") := by
  constructor
  · intro hs
    have hns : ¬(0.01 < |mo + t + tr + p + cp - 100|) := not_lt.mpr hs
    simp [AnalysisWeightings.validateFields, checkGeQ, checkLeQ, exceptOk,
      bindOkE, bindErrE, h1, h2, h3, h4, h5, h6, h7, h8, h9, h10, hns]
  · intro hs
    refine ⟨"Weightings must sum to 100%, got " ++ toString (mo + t + tr + p + cp) ++ "%",
      ?_, ?_⟩
    · simp [AnalysisWeightings.validateFields, checkGeQ, checkLeQ, bindOkE, bindErrE,
        h1, h2, h3, h4, h5, h6, h7, h8, h9, h10, hs]
    · show ("sum to 100").data <:+: _
      rw [String.data_append, String.data_append]
      exact infixAppendLeft (infixAppendLeft (by decide))

/-- C1, witness: the amended theorem applied at the in-range five-tuple
`(25, 25, 20, 15, 15)`, whose sum is exactly 100, yields a successful
construction. -/
theorem C1_witness :
    exceptOk (AnalysisWeightings.validateFields 25 25 20 15 15) = true :=
  (C1_weightings_sum_amended 25 25 20 15 15 (by norm_num) (by norm_num) (by norm_num)
    (by norm_num) (by norm_num) (by norm_num) (by norm_num) (by norm_num)
    (by norm_num) (by norm_num)).1 (by norm_num)

/-- C2, counterexample to the claim as stated: `(-2, -1, 0)` satisfies
`year3 ≥ year1` and `year5 ≥ year3`, yet construction fails, because each year
also carries the per-field bound `ge=0`. -/
theorem C2_counterexample :
    ((-2 : ℚ) ≤ -1 ∧ (-1 : ℚ) ≤ 0) ∧
    exceptOk (RevenueProjection.validateFields (-2) (-1) 0) = false := by
  constructor
  · norm_num
  · rfl

/-- C2, amended: for non-negative `a`, `b`, `c` (each year carries the field
bound `ge=0`), `RevenueProjection(year1=a, year3=b, year5=c)` succeeds iff
`b ≥ a` and `c ≥ b`; moreover when `b ≥ a` but `c < b` the reported violation
is the year5-versus-year3 rule — year5 is compared only against year3, never
re-checked against year1. -/
theorem C2_revenue_projection_amended (a b c : ℚ)
    (ha : 0 ≤ a) (hb : 0 ≤ b) (hc : 0 ≤ c) :
    (exceptOk (RevenueProjection.validateFields a b c) = true ↔ (a ≤ b ∧ b ≤ c)) ∧
    (a ≤ b → c < b →
      RevenueProjection.validateFields a b c =
        .error "year5 projection should not be less than year3") := by
  constructor
  · simp only [RevenueProjection.validateFields, checkGeQ, bindOkE, bindErrE,
      if_pos ha, if_pos hb, if_pos hc]
    split_ifs with h1 h2
    · simp only [exceptOk, Bool.false_eq_true, false_iff]
      exact fun h => (not_le.mpr h1) h.1
    · simp only [exceptOk, Bool.false_eq_true, false_iff]
      exact fun h => (not_le.mpr h2) h.2
    · simp only [exceptOk, true_iff]
      exact ⟨le_of_not_lt h1, le_of_not_lt h2⟩
  · intro hab hcb
    simp [RevenueProjection.validateFields, checkGeQ, bindOkE, bindErrE,
      ha, hb, hc, not_lt.mpr hab, hcb]

/-- C2, witness: the amended theorem applied at the spec's example
`(2_000_000, 10_000_000, 50_000_000)` (success), together with the failing
example `(2_000_000, 1_000_000, 50_000_000)`. -/
theorem C2_witness :
    exceptOk (RevenueProjection.validateFields 2000000 10000000 50000000) = true ∧
    exceptOk (RevenueProjection.validateFields 2000000 1000000 50000000) = false :=
  ⟨((C2_revenue_projection_amended 2000000 10000000 50000000 (by norm_num)
      (by norm_num) (by norm_num)).1).mpr (by norm_num), rfl⟩

/-- C3: when the values of the input mapping sum to a nonzero total,
`normalize_weightings` returns (without failing) the mapping with every value
rescaled to `value / total * 100`, over the same keys in the same order, and
the output values sum to exactly 100.  No sign condition is imposed: negative
weights normalize along with positive ones. -/
theorem C3_normalize_proportional (ws : List (String × ℚ)) (h : sumVals ws ≠ 0) :
    normalize_weightings ws =
      .ok (ws.map fun kv => (kv.1, kv.2 / sumVals ws * 100)) ∧
    (ws.map fun kv => (kv.1, kv.2 / sumVals ws * 100)).map Prod.fst =
      ws.map Prod.fst ∧
    sumVals (ws.map fun kv => (kv.1, kv.2 / sumVals ws * 100)) = 100 := by
  refine ⟨?_, ?_, ?_⟩
  · simp only [normalize_weightings]
    rw [if_neg h]
  · exact map_fst_scale ws (sumVals ws)
  · rw [sumVals_scale, div_self h, one_mul]

/-- C3, witness: the theorem applied at a mapping containing a negative
weight; the total is 50, so the values are doubled and sum to 100. -/
theorem C3_witness :
    sumVals [("a", 30), ("b", -10), ("c", 30)] ≠ 0 ∧
    normalize_weightings [("a", 30), ("b", -10), ("c", 30)] =
      .ok [("a", 60), ("b", -20), ("c", 60)] := by
  have h : sumVals [("a", (30 : ℚ)), ("b", -10), ("c", 30)] ≠ 0 := by
    norm_num [sumVals]
  refine ⟨h, ?_⟩
  rw [(C3_normalize_proportional _ h).1]
  norm_num [sumVals, List.map_cons, List.map_nil]

/-- C4, counterexample to the claim as stated: `{a: 1, b: -1}` does not have
all-zero values, yet `normalize_weightings` raises the "cannot be zero" error,
because the code tests whether the SUM is zero, not whether every value is. -/
theorem C4_counterexample :
    normalize_weightings [("a", 1), ("b", -1)] =
      .error "All weightings cannot be zero" ∧
    (([("a", (1 : ℚ)), ("b", -1)]).all fun kv => kv.2 == 0) = false := by
  constructor
  · have h : sumVals [("a", (1 : ℚ)), ("b", -1)] = 0 := by norm_num [sumVals]
    simp [normalize_weightings, h]
  · norm_num [List.all_cons]

/-- C4, amended: `normalize_weightings` raises the explicit
"All weightings cannot be zero" error (whose message contains "cannot be
zero") exactly when the input values sum to zero — which includes, but is not
limited to, the all-zero mapping — and returns normally otherwise. -/
theorem C4_normalize_zero_sum_amended (ws : List (String × ℚ)) :
    (sumVals ws = 0 →
      normalize_weightings ws = .error "All weightings cannot be zero" ∧
      strContains "All weightings cannot be zero" "cannot be zero") ∧
    (sumVals ws ≠ 0 → ∃ r, normalize_weightings ws = .ok r) := by
  constructor
  · intro h
    exact ⟨by simp [normalize_weightings, h], by decide⟩
  · intro h
    refine ⟨ws.map fun kv => (kv.1, kv.2 / sumVals ws * 100), ?_⟩
    simp only [normalize_weightings]
    rw [if_neg h]

/-- C4, witness: the amended theorem applied at the all-zero mapping of the
test fixture (sum zero, explicit error) and at a nonzero mapping. -/
theorem C4_witness :
    normalize_weightings
      [("market_opportunity", 0), ("team", 0), ("traction", 0), ("product", 0),
        ("competitive_position", 0)] = .error "All weightings cannot be zero" ∧
    (∃ r, normalize_weightings [("team", 30)] = .ok r) :=
  ⟨((C4_normalize_zero_sum_amended _).1 (by norm_num [sumVals])).1,
    (C4_normalize_zero_sum_amended [("team", 30)]).2 (by norm_num [sumVals])⟩

/-- C5: for every entity constructor and raw input, `get_validation_errors`
returns the empty list exactly when construction succeeds, returns the
structured one-record list carrying the exception's message whenever
construction fails (it never propagates the exception), and on the test
fixture violating exactly the weighting-sum rule the returned message contains
the violated-rule text "sum to 100". -/
theorem C5_get_validation_errors :
    (∀ (α β : Type) (mc : α → Except String β) (data : α),
      (get_validation_errors mc data = [] ↔ ∃ b, mc data = .ok b) ∧
      (∀ e, mc data = .error e →
        get_validation_errors mc data = [⟨e, "unknown_error"⟩])) ∧
    get_validation_errors (fun d : Dict => AnalysisWeightings.parse (.vdict d))
        badWeightingsDict =
      [⟨"Weightings must sum to 100%, got 125%", "unknown_error"⟩] ∧
    strContains "Weightings must sum to 100%, got 125%" "sum to 100" := by
  refine ⟨?_, ?_, by decide⟩
  · intro α β mc data
    constructor
    · cases hmc : mc data with
      | ok b => simp [get_validation_errors, hmc]
      | error e => simp [get_validation_errors, hmc]
    · intro e he
      simp [get_validation_errors, he]
  · have e1 : AnalysisWeightings.parse (.vdict badWeightingsDict) =
        AnalysisWeightings.validateFields 50 25 20 15 15 := rfl
    have e2 : AnalysisWeightings.validateFields 50 25 20 15 15 =
        .error ("Weightings must sum to 100%, got " ++ toString (125 : ℚ) ++ "%") := by
      have hgt : |(50 : ℚ) + 25 + 20 + 15 + 15 - 100| > 0.01 := by
        rw [show (50 : ℚ) + 25 + 20 + 15 + 15 - 100 = 25 by norm_num,
          abs_of_pos (show (0 : ℚ) < 25 by norm_num)]
        norm_num
      simp only [AnalysisWeightings.validateFields, checkGeQ, checkLeQ,
        bindOkE, bindErrE]
      rw [if_pos (show (0 : ℚ) ≤ 50 by norm_num), bindOkE,
        if_pos (show (50 : ℚ) ≤ 100 by norm_num), bindOkE,
        if_pos (show (0 : ℚ) ≤ 25 by norm_num), bindOkE,
        if_pos (show (25 : ℚ) ≤ 100 by norm_num), bindOkE,
        if_pos (show (0 : ℚ) ≤ 20 by norm_num), bindOkE,
        if_pos (show (20 : ℚ) ≤ 100 by norm_num), bindOkE,
        if_pos (show (0 : ℚ) ≤ 15 by norm_num), bindOkE,
        if_pos (show (15 : ℚ) ≤ 100 by norm_num), bindOkE,
        if_pos (show (0 : ℚ) ≤ 15 by norm_num), bindOkE,
        if_pos (show (15 : ℚ) ≤ 100 by norm_num), bindOkE,
        if_pos hgt,
        show (50 : ℚ) + 25 + 20 + 15 + 15 = 125 by norm_num]
    have e3 := e1.trans e2
    simp only [get_validation_errors, e3]
    decide

/-- C5, witness: the generic part of the theorem applied at the
`AnalysisWeightings` constructor on the empty raw dict (every weight takes its
declared default, the defaults sum to 100, construction succeeds, and the
error list is empty). -/
theorem C5_witness :
    get_validation_errors (fun d : Dict => AnalysisWeightings.parse (.vdict d)) [] = [] := by
  refine (C5_get_validation_errors.1 Dict AnalysisWeightings
    (fun d : Dict => AnalysisWeightings.parse (.vdict d)) []).1.mpr
    ⟨⟨25, 25, 20, 15, 15⟩, ?_⟩
  have e1 : AnalysisWeightings.parse (.vdict ([] : Dict)) =
      AnalysisWeightings.validateFields 25 25 20 15 15 := rfl
  rw [e1]
  have hle : ¬(|(25 : ℚ) + 25 + 20 + 15 + 15 - 100| > 0.01) := by
    rw [show (25 : ℚ) + 25 + 20 + 15 + 15 - 100 = 0 by norm_num, abs_zero]
    norm_num
  simp only [AnalysisWeightings.validateFields, checkGeQ, checkLeQ, bindOkE, bindErrE]
  rw [if_pos (show (0 : ℚ) ≤ 25 by norm_num), bindOkE,
    if_pos (show (25 : ℚ) ≤ 100 by norm_num), bindOkE,
    if_pos (show (0 : ℚ) ≤ 25 by norm_num), bindOkE,
    if_pos (show (25 : ℚ) ≤ 100 by norm_num), bindOkE,
    if_pos (show (0 : ℚ) ≤ 20 by norm_num), bindOkE,
    if_pos (show (20 : ℚ) ≤ 100 by norm_num), bindOkE,
    if_pos (show (0 : ℚ) ≤ 15 by norm_num), bindOkE,
    if_pos (show (15 : ℚ) ≤ 100 by norm_num), bindOkE,
    if_pos (show (0 : ℚ) ≤ 15 by norm_num), bindOkE,
    if_pos (show (15 : ℚ) ≤ 100 by norm_num), bindOkE,
    if_neg hle]

/-- C6: each typed façade re-raises any underlying construction failure under
its own stable prefix with the original violation details appended, and
returns the constructed entity unchanged on success. -/
theorem C6_facade_prefixes (classDefYear : Int) (data : Dict) :
    (∀ e, DealMemo.parse (.vdict data) = .error e →
      validate_deal_memo data = .error ("Deal memo validation failed: " ++ e)) ∧
    (∀ m, DealMemo.parse (.vdict data) = .ok m → validate_deal_memo data = .ok m) ∧
    (∀ e, CompanyProfile.parse classDefYear (.vdict data) = .error e →
      validate_company_profile classDefYear data =
        .error ("Company profile validation failed: " ++ e)) ∧
    (∀ p, CompanyProfile.parse classDefYear (.vdict data) = .ok p →
      validate_company_profile classDefYear data = .ok p) ∧
    (∀ e, InvestmentMetrics.parse (.vdict data) = .error e →
      validate_investment_metrics data =
        .error ("Investment metrics validation failed: " ++ e)) ∧
    (∀ m, InvestmentMetrics.parse (.vdict data) = .ok m →
      validate_investment_metrics data = .ok m) := by
  refine ⟨?_, ?_, ?_, ?_, ?_, ?_⟩ <;> intro x hx <;>
    simp [validate_deal_memo, validate_company_profile, validate_investment_metrics, hx]

/-- C6, witness: the theorem applied at the empty dict, whose first violation
is the missing required `id` field; the façade reports it under the deal-memo
prefix. -/
theorem C6_witness :
    validate_deal_memo [] = .error ("Deal memo validation failed: " ++ "id: Field required") :=
  (C6_facade_prefixes 2025 []).1 "id: Field required" rfl

/-- C7: a successfully constructed `MetricDistribution` always satisfies
`max ≥ min`, `min ≤ median ≤ max` and `sample_size ≥ 1`; the percentile,
mean and standard-deviation fields are accepted without any cross-check (the
spec's example distribution succeeds for arbitrary values of them), while
`max = 50000 < min = 100000` is rejected. -/
theorem C7_metric_distribution_sanity :
    (∀ (mn mx md p25 p75 p90 mean sd : ℚ) (ss : Int) (dist : MetricDistribution),
      MetricDistribution.validateFields mn mx md p25 p75 p90 mean sd ss = .ok dist →
      dist.min ≤ dist.max ∧ dist.min ≤ dist.median ∧ dist.median ≤ dist.max ∧
        1 ≤ dist.sample_size) ∧
    (∀ p25 p75 p90 mean sd : ℚ,
      exceptOk (MetricDistribution.validateFields 100000 50000000 2000000
        p25 p75 p90 mean sd 100) = true) ∧
    exceptOk (MetricDistribution.validateFields 100000 50000 2000000
      500000 5000000 15000000 3500000 8000000 100) = false := by
  refine ⟨?_, ?_, rfl⟩
  case refine_2 =>
    intro p25 p75 p90 mean sd
    simp only [MetricDistribution.validateFields, checkGeI, bindOkE, bindErrE]
    rw [if_pos (show (1 : Int) ≤ 100 by norm_num), bindOkE,
      if_neg (show ¬((50000000 : ℚ) < 100000) by norm_num),
      if_neg (not_not_intro
        ⟨show (100000 : ℚ) ≤ 2000000 by norm_num,
          show (2000000 : ℚ) ≤ 50000000 by norm_num⟩)]
    rfl
  intro mn mx md p25 p75 p90 mean sd ss dist h
  simp only [MetricDistribution.validateFields, checkGeI, bindOkE, bindErrE] at h
  split_ifs at h with g1 g2 g3
  all_goals try exact Except.noConfusion h
  injection h with hw
  subst hw
  exact ⟨le_of_not_lt g2, g3.1, g3.2, g1⟩

/-- C7, witness: the first part of the theorem applied at the spec's example
distribution. -/
theorem C7_witness :
    (100000 : ℚ) ≤ 50000000 ∧ (100000 : ℚ) ≤ 2000000 ∧
    (2000000 : ℚ) ≤ 50000000 ∧ (1 : Int) ≤ 100 :=
  C7_metric_distribution_sanity.1 100000 50000000 2000000 500000 5000000 15000000
    3500000 8000000 100
    ⟨100000, 50000000, 2000000, 500000, 5000000, 15000000, 3500000, 8000000, 100⟩
    (by
      simp only [MetricDistribution.validateFields, checkGeI, bindOkE, bindErrE]
      rw [if_pos (show (1 : Int) ≤ 100 by norm_num), bindOkE,
        if_neg (show ¬((50000000 : ℚ) < 100000) by norm_num),
        if_neg (not_not_intro
          ⟨show (100000 : ℚ) ≤ 2000000 by norm_num,
            show (2000000 : ℚ) ≤ 50000000 by norm_num⟩)])

/-- C8: the claim says the founded-year upper bound is the wall-clock year
read once per validation call, so a validation performed in a later year uses
that later year.  In the code the bound is the expression `datetime.now().year`
inside the class body, evaluated once when the class is defined (module
import) and never re-read, so every later validation keeps the import-time
year: with the schema class defined during 2025, a profile founded in 2026 is
rejected even when validated during 2026 (`1900 ≤ 2026 ≤ 2026` holds, so the
claim predicts acceptance), while the identical input is accepted by a process
whose class was defined during 2026 — the outcome depends only on the
class-definition-time year. -/
theorem C8_founded_year_frozen_at_import :
    exceptOk (CompanyProfile.parse 2025 (.vdict companyDict2026)) = false ∧
    exceptOk (CompanyProfile.parse 2026 (.vdict companyDict2026)) = true ∧
    (1900 : Int) ≤ 2026 ∧ (2026 : Int) ≤ 2026 := by
  refine ⟨rfl, rfl, by norm_num, le_refl _⟩

/-- C9: any raw document that is exactly the canonical serialized form of a
(constraint-satisfying) deal memo validates successfully, and re-serializing
the validated entity reproduces the input document structurally unchanged —
no field is lost or mutated. -/
theorem C9_round_trip_identity (v : Value)
    (h : ∃ m, DealMemo.valid m = true ∧ v = DealMemo.dump m) :
    ∃ m, DealMemo.parse v = .ok m ∧ DealMemo.dump m = v := by
  obtain ⟨m, hm, rfl⟩ := h
  exact ⟨m, dealMemoParseDump m hm, rfl⟩

set_option maxRecDepth 100000 in
/-- C9, witness: the theorem applied at the canonical dump of the concrete
sample memo (the test fixture document). -/
theorem C9_witness :
    ∃ m, DealMemo.parse (DealMemo.dump sampleDealMemo) = .ok m ∧
      DealMemo.dump m = DealMemo.dump sampleDealMemo := by
  have hAW : AnalysisWeightings.valid sampleWeightings = true := by
    simp only [AnalysisWeightings.valid, AnalysisWeightings.total, sampleWeightings,
      Bool.and_eq_true, decide_eq_true_eq, Bool.not_eq_true', decide_eq_false_iff_not]
    norm_num
  have hv : DealMemo.valid sampleDealMemo = true := by
    simp only [DealMemo.valid, sampleDealMemo, sampleAegisDealMemo, AegisDealMemo.valid,
      Bool.and_eq_true]
    exact ⟨⟨⟨⟨⟨⟨by decide, by decide⟩, by decide⟩, by decide⟩, by decide⟩, hAW⟩,
      by decide⟩
  exact C9_round_trip_identity _ ⟨sampleDealMemo, hv, rfl⟩

/-- C10: every successfully constructed `AnalysisWeightings` has each of its
five weights within `[0, 100]` (the per-field bounds), and consequently the
five-tuple `(120, -20, 0, 0, 0)`, whose sum is exactly 100, is rejected. -/
theorem C10_weights_individually_bounded :
    (∀ (mo t tr p cp : ℚ) (w : AnalysisWeightings),
      AnalysisWeightings.validateFields mo t tr p cp = .ok w →
      (0 ≤ w.market_opportunity ∧ w.market_opportunity ≤ 100) ∧
      (0 ≤ w.team ∧ w.team ≤ 100) ∧ (0 ≤ w.traction ∧ w.traction ≤ 100) ∧
      (0 ≤ w.product ∧ w.product ≤ 100) ∧
      (0 ≤ w.competitive_position ∧ w.competitive_position ≤ 100)) ∧
    exceptOk (AnalysisWeightings.validateFields 120 (-20) 0 0 0) = false ∧
    (120 : ℚ) + (-20) + 0 + 0 + 0 = 100 := by
  refine ⟨?_, rfl, by norm_num⟩
  intro mo t tr p cp w h
  simp only [AnalysisWeightings.validateFields, checkGeQ, checkLeQ] at h
  by_cases g1 : 0 ≤ mo
  case neg => simp only [if_neg g1, bindErrE] at h; exact Except.noConfusion h
  simp only [if_pos g1, bindOkE] at h
  by_cases g2 : mo ≤ 100
  case neg => simp only [if_neg g2, bindErrE] at h; exact Except.noConfusion h
  simp only [if_pos g2, bindOkE] at h
  by_cases g3 : 0 ≤ t
  case neg => simp only [if_neg g3, bindErrE] at h; exact Except.noConfusion h
  simp only [if_pos g3, bindOkE] at h
  by_cases g4 : t ≤ 100
  case neg => simp only [if_neg g4, bindErrE] at h; exact Except.noConfusion h
  simp only [if_pos g4, bindOkE] at h
  by_cases g5 : 0 ≤ tr
  case neg => simp only [if_neg g5, bindErrE] at h; exact Except.noConfusion h
  simp only [if_pos g5, bindOkE] at h
  by_cases g6 : tr ≤ 100
  case neg => simp only [if_neg g6, bindErrE] at h; exact Except.noConfusion h
  simp only [if_pos g6, bindOkE] at h
  by_cases g7 : 0 ≤ p
  case neg => simp only [if_neg g7, bindErrE] at h; exact Except.noConfusion h
  simp only [if_pos g7, bindOkE] at h
  by_cases g8 : p ≤ 100
  case neg => simp only [if_neg g8, bindErrE] at h; exact Except.noConfusion h
  simp only [if_pos g8, bindOkE] at h
  by_cases g9 : 0 ≤ cp
  case neg => simp only [if_neg g9, bindErrE] at h; exact Except.noConfusion h
  simp only [if_pos g9, bindOkE] at h
  by_cases g10 : cp ≤ 100
  case neg => simp only [if_neg g10, bindErrE] at h; exact Except.noConfusion h
  simp only [if_pos g10, bindOkE] at h
  by_cases g11 : |mo + t + tr + p + cp - 100| > 0.01
  case pos => simp only [if_pos g11] at h; exact Except.noConfusion h
  simp only [if_neg g11] at h
  injection h with hw
  subst hw
  exact ⟨⟨g1, g2⟩, ⟨g3, g4⟩, ⟨g5, g6⟩, ⟨g7, g8⟩, ⟨g9, g10⟩⟩

/-- C10, witness: the theorem applied at the default weighting five-tuple
`(25, 25, 20, 15, 15)`. -/
theorem C10_witness :
    ((0 : ℚ) ≤ 25 ∧ (25 : ℚ) ≤ 100) ∧ ((0 : ℚ) ≤ 25 ∧ (25 : ℚ) ≤ 100) ∧
    ((0 : ℚ) ≤ 20 ∧ (20 : ℚ) ≤ 100) ∧ ((0 : ℚ) ≤ 15 ∧ (15 : ℚ) ≤ 100) ∧
    ((0 : ℚ) ≤ 15 ∧ (15 : ℚ) ≤ 100) :=
  C10_weights_individually_bounded.1 25 25 20 15 15 ⟨25, 25, 20, 15, 15⟩
    (by
      have hle : ¬(|(25 : ℚ) + 25 + 20 + 15 + 15 - 100| > 0.01) := by
        rw [show (25 : ℚ) + 25 + 20 + 15 + 15 - 100 = 0 by norm_num, abs_zero]
        norm_num
      simp only [AnalysisWeightings.validateFields, checkGeQ, checkLeQ, bindOkE, bindErrE]
      rw [if_pos (show (0 : ℚ) ≤ 25 by norm_num), bindOkE,
        if_pos (show (25 : ℚ) ≤ 100 by norm_num), bindOkE,
        if_pos (show (0 : ℚ) ≤ 25 by norm_num), bindOkE,
        if_pos (show (25 : ℚ) ≤ 100 by norm_num), bindOkE,
        if_pos (show (0 : ℚ) ≤ 20 by norm_num), bindOkE,
        if_pos (show (20 : ℚ) ≤ 100 by norm_num), bindOkE,
        if_pos (show (0 : ℚ) ≤ 15 by norm_num), bindOkE,
        if_pos (show (15 : ℚ) ≤ 100 by norm_num), bindOkE,
        if_pos (show (0 : ℚ) ≤ 15 by norm_num), bindOkE,
        if_pos (show (15 : ℚ) ≤ 100 by norm_num), bindOkE,
        if_neg hle])
